import Mathlib

/-!
Verification of the ethereum-sdk exchange-order fulfillment engine.

The development shallowly embeds, in Lean, the parts of the repository
needed to settle the properties under examination:

* `packages/sdk/src/common/get-base-fee.ts` — the fee resolver
  (`getBaseFee`), including its JavaScript truthiness / `Number` coercion
  semantics and its logging of transport errors.
* `packages/web3-ethereum/src/index.ts` — `Web3FunctionCall.send`, the
  concatenation of ABI call data with caller-supplied additional calldata.
* The order-fulfillment dispatcher, protocol handlers and fee utilities,
  which are exercised by the repository's tests but whose implementation
  files are not part of this snapshot; those are modelled from the spec
  (each such definition carries a `Modelled from the spec:` doc comment).
-/

namespace EthereumSdk

/-! ## JavaScript value model for the fee resolver

`get-base-fee.ts` reads a fetched JSON table and applies JavaScript
truthiness (`!envFeeConfig`, `envFeeConfig[type] || 0`) and the `Number`
coercion.  We model the JSON leaf values that can occur in a fee table and
those two operations.  `Number` can produce `NaN` (on a non-numeric
string), which we model as `none`. -/

inductive JsVal where
  | jnum (n : Int)
  | jnull
  | jstr (s : String)
deriving DecidableEq, Repr

/-- JavaScript truthiness of a fee-table leaf value: `0`, `null` and the
empty string are falsy, everything else is truthy. -/
def JsVal.truthy : JsVal → Bool
  | .jnum n => n != 0
  | .jnull => false
  | .jstr s => s != ""

/-- The JavaScript `Number(·)` coercion on a fee-table leaf value;
`none` models `NaN` (a non-numeric string). -/
def JsVal.toNumber : JsVal → Option Int
  | .jnum n => some n
  | .jnull => some 0
  | .jstr s => if s = "" then some 0 else s.toInt?

/-- A per-network fee entry: order-type key → configured value
(`EnvFeeConfig` in `get-base-fee.ts`). -/
abbrev EnvFeeConfig := List (String × JsVal)

/-- The fetched fee table: network key → per-network entry
(`CommonFeeConfig` in `get-base-fee.ts`). -/
abbrev CommonFeeConfig := List (String × EnvFeeConfig)

/-- A transport-level failure of the `axios.get` fetch. -/
structure TransportError where
  msg : String
deriving DecidableEq, Repr

/-- A structured log record produced by `handleAxiosErrorResponse`,
carrying the network error-code tag. -/
structure LogEntry where
  code : String
deriving DecidableEq, Repr

/-- The errors `getBaseFee` can throw: a propagated transport error, the
`Fee config was not found for ...` error and the
`Unsupported fee type ...` error. -/
inductive GetBaseFeeError where
  | transport (e : TransportError)
  | feeNotFound (env : String)
  | unsupportedFeeType (t : String)
deriving DecidableEq, Repr

/-- The human-readable message carried by each `getBaseFee` error,
matching the `Error` messages constructed in `get-base-fee.ts`. -/
def GetBaseFeeError.message : GetBaseFeeError → String
  | .transport e => e.msg
  | .feeNotFound env => "Fee config was not found for " ++ env
  | .unsupportedFeeType t => "Unsupported fee type " ++ t

/-- Embedding of `getBaseFee` (`packages/sdk/src/common/get-base-fee.ts`).
The external fetch is passed in as its result (`fetchResult`); the pair's
second component collects the structured log entries emitted by the
`catch` block (`handleAxiosErrorResponse(e, { code:
NetworkErrorCode.ETHEREUM_EXTERNAL_ERR })`).  Inside the `try`, a missing
network key (`!envFeeConfig`) throws the fee-not-found error, which the
`catch` block logs and re-throws; a transport error is likewise logged and
re-thrown unchanged.  After the `try`, a missing order-type key throws the
unsupported-fee-type error (not logged), and otherwise the function
returns `Number(envFeeConfig[type] || 0)`, where `none` models `NaN`. -/
def getBaseFee (fetchResult : Except TransportError CommonFeeConfig)
    (env t : String) : Except GetBaseFeeError (Option Int) × List LogEntry :=
  match fetchResult with
  | .error e => (.error (.transport e), [⟨"ETHEREUM_EXTERNAL_ERR"⟩])
  | .ok table =>
    match table.lookup env with
    | none => (.error (.feeNotFound env), [⟨"ETHEREUM_EXTERNAL_ERR"⟩])
    | some envFeeConfig =>
      match envFeeConfig.lookup t with
      | none => (.error (.unsupportedFeeType t), [])
      | some v => (.ok (if v.truthy then v.toNumber else some 0), [])

end EthereumSdk

namespace EthereumSdk

/-- C5: `getBaseFee` fails with the fee-not-found error (message naming
the missing network) when the fetched table has no entry for the
network; fails with the unsupported-fee-type error (message naming the
type) when the network's entry lacks the order-type key; and when both
keys are present and the configured value is a number, returns that
number. -/
theorem getBaseFee_key_errors_and_value (table : CommonFeeConfig)
    (env t : String) :
    (table.lookup env = none →
      (getBaseFee (.ok table) env t).1 = .error (.feeNotFound env) ∧
      (GetBaseFeeError.feeNotFound env).message =
        "Fee config was not found for " ++ env) ∧
    (∀ cfg : EnvFeeConfig, table.lookup env = some cfg →
      cfg.lookup t = none →
      (getBaseFee (.ok table) env t).1 = .error (.unsupportedFeeType t) ∧
      (GetBaseFeeError.unsupportedFeeType t).message =
        "Unsupported fee type " ++ t) ∧
    (∀ (cfg : EnvFeeConfig) (n : Int), table.lookup env = some cfg →
      cfg.lookup t = some (.jnum n) →
      (getBaseFee (.ok table) env t).1 = .ok (some n)) := by
  refine ⟨fun h => ?_, fun cfg hc ht => ?_, fun cfg n hc hn => ?_⟩
  · simp [getBaseFee, h, GetBaseFeeError.message]
  · simp [getBaseFee, hc, ht, GetBaseFeeError.message]
  · by_cases hz : n = 0
    · simp [getBaseFee, hc, hn, JsVal.truthy, hz]
    · simp [getBaseFee, hc, hn, JsVal.truthy, JsVal.toNumber, hz]

/-- Closed-form witness for `getBaseFee_key_errors_and_value`, evaluating
the embedding on a concrete two-network table. -/
theorem getBaseFee_key_errors_and_value_witness :
    ((getBaseFee (.ok [("mainnet", [("RARIBLE_V2", .jnum 100)])])
        "polygon" "RARIBLE_V2").1 =
      .error (.feeNotFound "polygon")) ∧
    ((getBaseFee (.ok [("mainnet", [("RARIBLE_V2", .jnum 100)])])
        "mainnet" "AUCTION").1 =
      .error (.unsupportedFeeType "AUCTION")) ∧
    ((getBaseFee (.ok [("mainnet", [("RARIBLE_V2", .jnum 100)])])
        "mainnet" "RARIBLE_V2").1 = .ok (some 100)) := by
  refine ⟨?_, ?_, ?_⟩
  · exact ((getBaseFee_key_errors_and_value
      [("mainnet", [("RARIBLE_V2", .jnum 100)])] "polygon"
      "RARIBLE_V2").1 (by decide)).1
  · exact ((getBaseFee_key_errors_and_value
      [("mainnet", [("RARIBLE_V2", .jnum 100)])] "mainnet"
      "AUCTION").2.1 [("RARIBLE_V2", .jnum 100)] (by decide) (by decide)).1
  · exact (getBaseFee_key_errors_and_value
      [("mainnet", [("RARIBLE_V2", .jnum 100)])] "mainnet"
      "RARIBLE_V2").2.2 [("RARIBLE_V2", .jnum 100)] 100 (by decide)
      (by decide)

/-- C6: a transport error of the fee-table fetch is logged with the
structured `ETHEREUM_EXTERNAL_ERR` network error-code tag and re-thrown
unchanged: the result is exactly the original error (no retry, no
recovery, no substituted default fee value). -/
theorem getBaseFee_transport_error (e : TransportError) (env t : String) :
    getBaseFee (.error e) env t =
      (.error (.transport e), [⟨"ETHEREUM_EXTERNAL_ERR"⟩]) := rfl

/-- C9: when the network key is present and the order-type key is present
but its configured value is falsy (`0`, `null` or the empty string),
`getBaseFee` succeeds and returns `0` (the `Number(v || 0)` coercion). -/
theorem getBaseFee_falsy_value (table : CommonFeeConfig)
    (cfg : EnvFeeConfig) (env t : String) (v : JsVal)
    (hc : table.lookup env = some cfg) (hv : cfg.lookup t = some v)
    (hf : v.truthy = false) :
    (getBaseFee (.ok table) env t).1 = .ok (some 0) := by
  simp [getBaseFee, hc, hv, hf]

/-- Closed-form witness for `getBaseFee_falsy_value`: a `null` fee value
stored under both keys yields `0`. -/
theorem getBaseFee_falsy_value_witness :
    (getBaseFee (.ok [("testnet", [("SEAPORT_V1", .jnull)])])
      "testnet" "SEAPORT_V1").1 = .ok (some 0) :=
  getBaseFee_falsy_value [("testnet", [("SEAPORT_V1", .jnull)])]
    [("SEAPORT_V1", .jnull)] "testnet" "SEAPORT_V1" .jnull
    (by decide) (by decide) (by decide)

/-! ## Asset/amount utilities -/

/-- Modelled from the spec: the basis-point fee utility of the
Asset/Amount Utilities component (its implementation file is not part of
this snapshot) — "basis-point multiply-and-floor-divide
(`value * bps / 10000`, integer floor)". -/
def computeFee (a f : Nat) : Nat := a * f / 10000

/-- C3: the basis-point fee utility computes exactly the rational floor
`⌊a * f / 10000⌋` (integer floor division, never banker's rounding), and
in particular a zero fee rate yields a zero fee for every amount. -/
theorem computeFee_floor (a f : Nat) :
    computeFee a f = ⌊(a * f : ℚ) / 10000⌋₊ ∧ computeFee a 0 = 0 := by
  constructor
  · have h : ((a * f : ℕ) : ℚ) / ((10000 : ℕ) : ℚ) = (a * f : ℚ) / 10000 := by
      push_cast
      ring
    rw [← h, Nat.floor_div_nat, Nat.floor_natCast]
    rfl
  · simp [computeFee]

/-! ## Substring matching

Callers of the fulfillment engine pattern-match on error messages by
substring (the partial-fill test asserts
`rejects.toThrow("Order is not supported partial fill")`), so we define a
decidable substring check on character lists. -/

/-- The pattern `p` occurs at the head of `s`. -/
def headMatches : List Char → List Char → Bool
  | [], _ => true
  | _ :: _, [] => false
  | p :: ps, c :: cs => p == c && headMatches ps cs

/-- The pattern `p` occurs somewhere inside `s`. -/
def containsCL (p : List Char) : List Char → Bool
  | [] => headMatches p []
  | c :: cs => headMatches p (c :: cs) || containsCL p cs

/-- String `s` contains `pat` as a substring. -/
def containsSubstr (s pat : String) : Bool := containsCL pat.data s.data

/-! ## Order data model

Modelled from the spec's §3 data model (the order-model source file is
not part of this snapshot): an order carries its asset pair, validity
window, cumulative fill, the protocol discriminator and the per-order
partial-fill flag. -/

/-- The asset-class tag of an asset type. -/
inductive AssetClass where
  | eth
  | erc20
  | erc721
  | erc1155
  | collection
deriving DecidableEq, Repr

/-- A tagged asset type: class tag plus contract address and token id. -/
structure AssetType where
  assetClass : AssetClass
  contract : String
  tokenId : Nat
deriving DecidableEq, Repr

/-- An asset: an asset type together with an integer value/quantity. -/
structure Asset where
  assetType : AssetType
  value : Nat
deriving DecidableEq, Repr

/-- A caller-supplied origin fee entry: recipient account and a
basis-point value. -/
structure OriginFee where
  account : String
  value : Nat
deriving DecidableEq, Repr

/-- Modelled from the spec: the canonical order representation of §3. -/
structure Order where
  maker : String
  taker : Option String
  make : Asset
  take : Asset
  salt : Nat
  start : Nat
  «end» : Nat
  fill : Nat
  protocolTag : String
  allowPartialFills : Bool
deriving DecidableEq, Repr

/-- The remaining fillable quantity of an order,
`order.take.value - order.fill`. -/
def Order.remaining (o : Order) : Nat := o.take.value - o.fill

/-! ## Order fulfillment dispatcher -/

/-- The dispatcher's validation errors (§7 taxonomy). -/
inductive FillError where
  | InsufficientFillAmount
  | ChainMismatch
  | PartialFillNotSupported
  | UnsupportedProtocol (tag : String)
deriving DecidableEq, Repr

/-- The human-readable message carried by each dispatcher error; the
partial-fill message is the one the tests match on by substring. -/
def FillError.message : FillError → String
  | .InsufficientFillAmount => "Insufficient fill amount"
  | .ChainMismatch => "Chain id of the wallet does not match the order"
  | .PartialFillNotSupported => "Order is not supported partial fill"
  | .UnsupportedProtocol tag => "Unsupported protocol " ++ tag

/-- The output pending-transaction object: target contract, calldata and
attached native-coin value. -/
structure PendingTransaction where
  «to» : String
  data : List Char
  value : Nat
deriving DecidableEq, Repr

/-- The outcome of one `fulfill` call, together with the number of
external network calls the engine performed while producing it. -/
structure FulfillOutcome where
  result : Except FillError PendingTransaction
  networkCalls : Nat

/-- Modelled from the spec: the closed set of protocol tags for which the
dispatcher has a registered handler (native/RaribleV2, Seaport,
LooksRare). -/
def registeredProtocols : List String :=
  ["RARIBLE_V2", "SEAPORT_V1", "LOOKSRARE"]

/-- Modelled from the spec: a registered protocol handler's `fulfill`
delegate.  Its first step is the fee-schedule fetch, so a delegated call
performs at least one network call; the encoded transaction itself is
protocol-specific and not needed by the dispatcher-level properties. -/
def handlerFulfill (o : Order) (amount : Nat) (originFees : List OriginFee) :
    FulfillOutcome :=
  { result := .ok
      { «to» := o.protocolTag
        data := (String.intercalate ":"
          [o.protocolTag, toString amount, toString originFees.length]).data
        value := if o.take.assetType.assetClass = .eth then amount else 0 }
    networkCalls := 1 + originFees.length }

/-- Modelled from the spec: the Order Fulfillment Dispatcher (§4.1).
It validates, in order: `amount > 0` and `amount <= remaining`
(`InsufficientFillAmount`), wallet network vs. order network
(`ChainMismatch`), the per-order partial-fill flag
(`PartialFillNotSupported`), and handler registration for
`order.protocolTag` (`UnsupportedProtocol`); only then does it delegate
to the protocol handler.  All validation failures happen before any
network call (`networkCalls = 0`). -/
def fulfill (walletChainId orderChainId : Nat) (o : Order) (amount : Int)
    (originFees : List OriginFee) : FulfillOutcome :=
  if amount ≤ 0 ∨ (o.remaining : Int) < amount then
    { result := .error .InsufficientFillAmount, networkCalls := 0 }
  else if walletChainId ≠ orderChainId then
    { result := .error .ChainMismatch, networkCalls := 0 }
  else if o.allowPartialFills = false ∧ amount < (o.remaining : Int) then
    { result := .error .PartialFillNotSupported, networkCalls := 0 }
  else if o.protocolTag ∉ registeredProtocols then
    { result := .error (.UnsupportedProtocol o.protocolTag),
      networkCalls := 0 }
  else
    handlerFulfill o amount.toNat originFees

deriving instance DecidableEq for Except

/-- A concrete ERC-1155-for-ETH sell order used to exercise the
dispatcher on explicit inputs: `takeValue` units asked, `fill` already
consumed, protocol tag `tag`, partial fills allowed iff `ap`. -/
def sampleOrder (takeValue fill : Nat) (tag : String) (ap : Bool) : Order :=
  { maker := "0xseller"
    taker := none
    make := ⟨⟨.erc1155, "0xnft", 7⟩, 10⟩
    take := ⟨⟨.eth, "", 0⟩, takeValue⟩
    salt := 1
    start := 0
    «end» := 0
    fill := fill
    protocolTag := tag
    allowPartialFills := ap }

/-- C1: for every order and requested amount, a non-positive amount or an
amount exceeding the remaining fillable quantity
(`order.take.value - order.fill`) makes `fulfill` fail with
`InsufficientFillAmount` before any network call is made. -/
theorem fulfill_insufficient_amount (wc oc : Nat) (o : Order)
    (amount : Int) (fees : List OriginFee)
    (h : amount ≤ 0 ∨ (o.remaining : Int) < amount) :
    (fulfill wc oc o amount fees).result = .error .InsufficientFillAmount ∧
    (fulfill wc oc o amount fees).networkCalls = 0 := by
  unfold fulfill
  rw [if_pos h]
  exact ⟨rfl, rfl⟩

/-- Closed-form witness for `fulfill_insufficient_amount`: asking for 11
out of a remaining 10 fails locally, as does asking for 0. -/
theorem fulfill_insufficient_amount_witness :
    ((fulfill 4 4 (sampleOrder 10 0 "SEAPORT_V1" true) 11 []).result =
        .error .InsufficientFillAmount ∧
      (fulfill 4 4 (sampleOrder 10 0 "SEAPORT_V1" true) 11 []).networkCalls =
        0) ∧
    ((fulfill 4 4 (sampleOrder 10 0 "SEAPORT_V1" true) 0 []).result =
        .error .InsufficientFillAmount ∧
      (fulfill 4 4 (sampleOrder 10 0 "SEAPORT_V1" true) 0 []).networkCalls =
        0) :=
  ⟨fulfill_insufficient_amount 4 4 (sampleOrder 10 0 "SEAPORT_V1" true) 11 []
      (Or.inr (by decide)),
    fulfill_insufficient_amount 4 4 (sampleOrder 10 0 "SEAPORT_V1" true) 0 []
      (Or.inl (by decide))⟩

/-- C2: for every order that forbids partial fills, a valid requested
amount strictly below the remaining quantity makes `fulfill` fail with
`PartialFillNotSupported` before any network call, and that error's
human-readable message contains the substring
"not supported partial fill". -/
theorem fulfill_partial_fill_not_supported (wc oc : Nat) (o : Order)
    (amount : Int) (fees : List OriginFee) (h0 : 0 < amount)
    (hc : wc = oc) (hp : o.allowPartialFills = false)
    (hlt : amount < (o.remaining : Int)) :
    (fulfill wc oc o amount fees).result = .error .PartialFillNotSupported ∧
    (fulfill wc oc o amount fees).networkCalls = 0 ∧
    containsSubstr (FillError.PartialFillNotSupported).message
      "not supported partial fill" = true := by
  have h1 : ¬(amount ≤ 0 ∨ (o.remaining : Int) < amount) := by
    push_neg
    exact ⟨h0, le_of_lt hlt⟩
  have h2 : ¬wc ≠ oc := by simp [hc]
  unfold fulfill
  rw [if_neg h1, if_neg h2, if_pos ⟨hp, hlt⟩]
  exact ⟨rfl, rfl, by decide⟩

/-- Closed-form witness for `fulfill_partial_fill_not_supported`: buying
2 out of 10 from a no-partial-fill order is rejected with the
pattern-matchable message. -/
theorem fulfill_partial_fill_not_supported_witness :
    (fulfill 4 4 (sampleOrder 10 0 "SEAPORT_V1" false) 2 []).result =
      .error .PartialFillNotSupported ∧
    (fulfill 4 4 (sampleOrder 10 0 "SEAPORT_V1" false) 2 []).networkCalls =
      0 ∧
    containsSubstr (FillError.PartialFillNotSupported).message
      "not supported partial fill" = true :=
  fulfill_partial_fill_not_supported 4 4
    (sampleOrder 10 0 "SEAPORT_V1" false) 2 [] (by decide) rfl rfl
    (by decide)

/-- C7: for every order whose protocol tag is outside the registered
(closed) handler set, a well-formed full-fill request makes `fulfill`
fail with the hard error `UnsupportedProtocol` (never a silent no-op)
before any network call. -/
theorem fulfill_unsupported_protocol (wc oc : Nat) (o : Order)
    (amount : Int) (fees : List OriginFee) (h0 : 0 < amount)
    (heq : amount = (o.remaining : Int)) (hc : wc = oc)
    (htag : o.protocolTag ∉ registeredProtocols) :
    (fulfill wc oc o amount fees).result =
      .error (.UnsupportedProtocol o.protocolTag) ∧
    (fulfill wc oc o amount fees).networkCalls = 0 := by
  have h1 : ¬(amount ≤ 0 ∨ (o.remaining : Int) < amount) := by
    push_neg
    exact ⟨h0, le_of_eq heq⟩
  have h2 : ¬wc ≠ oc := by simp [hc]
  have h3 : ¬(o.allowPartialFills = false ∧ amount < (o.remaining : Int)) := by
    rintro ⟨-, hlt⟩
    rw [heq] at hlt
    exact lt_irrefl _ hlt
  unfold fulfill
  rw [if_neg h1, if_neg h2, if_neg h3, if_pos htag]
  exact ⟨rfl, rfl⟩

/-- Closed-form witness for `fulfill_unsupported_protocol`: an order
tagged with an unregistered protocol is rejected even for a full fill. -/
theorem fulfill_unsupported_protocol_witness :
    (fulfill 4 4 (sampleOrder 10 0 "CRYPTOPUNKS" true) 10 []).result =
      .error (.UnsupportedProtocol "CRYPTOPUNKS") ∧
    (fulfill 4 4 (sampleOrder 10 0 "CRYPTOPUNKS" true) 10 []).networkCalls =
      0 :=
  fulfill_unsupported_protocol 4 4 (sampleOrder 10 0 "CRYPTOPUNKS" true) 10
    [] (by decide) (by decide) rfl (by decide)

/-! ## Seaport order handler

The Seaport handler's source file is not part of this snapshot; the model
below follows the spec's §4.2: "consideration list is an ordered sequence
of (token, amount, recipient) items; origin fees and protocol fee are
appended as extra consideration items, not folded into the main
transfer", with origin-fee amounts computed as `amount * bps / 10000`. -/

/-- A Seaport consideration item: token, amount and recipient; a `none`
recipient defaults to the offerer (the seller). -/
structure ConsiderationItem where
  token : String
  amount : Nat
  recipient : Option String
deriving DecidableEq, Repr

/-- Modelled from the spec: a Seaport sell order — offerer, offered item
and the ordered buyer-side consideration list. -/
structure SeaportOrder where
  offerer : String
  offerToken : String
  offerTokenId : Nat
  offerAmount : Nat
  consideration : List ConsiderationItem
  allowPartialFills : Bool
deriving DecidableEq, Repr

/-- Total buyer-paid value of a consideration list. -/
def considerationTotal : List ConsiderationItem → Nat
  | [] => 0
  | i :: rest => i.amount + considerationTotal rest

/-- The nominal take value of a Seaport order: the sum of its
consideration amounts. -/
def SeaportOrder.takeValue (o : SeaportOrder) : Nat :=
  considerationTotal o.consideration

/-- Total value routed to `account` by a consideration list. -/
def receivedBy (account : String) : List ConsiderationItem → Nat
  | [] => 0
  | i :: rest =>
    (if i.recipient = some account then i.amount else 0) +
      receivedBy account rest

/-- Total value routed to the seller (`offerer`) by a consideration list:
items with no explicit recipient or with the offerer as recipient. -/
def sellerProceeds (offerer : String) : List ConsiderationItem → Nat
  | [] => 0
  | i :: rest =>
    (if i.recipient = none ∨ i.recipient = some offerer then i.amount
      else 0) + sellerProceeds offerer rest

/-- Modelled from the spec: an origin fee entry becomes an extra
consideration item of `computeFee takeValue bps = takeValue * bps / 10000`
currency units routed to the fee recipient. -/
def originFeeItem (takeValue : Nat) (token : String) (f : OriginFee) :
    ConsiderationItem :=
  ⟨token, computeFee takeValue f.value, some f.account⟩

/-- Modelled from the spec: the consideration list the Seaport handler
encodes for a full fill — the order's own consideration with the
caller-supplied origin fees appended as extra items. -/
def seaportFillConsideration (o : SeaportOrder) (token : String)
    (fees : List OriginFee) : List ConsiderationItem :=
  o.consideration ++ fees.map (originFeeItem o.takeValue token)

theorem considerationTotal_append (xs ys : List ConsiderationItem) :
    considerationTotal (xs ++ ys) =
      considerationTotal xs + considerationTotal ys := by
  induction xs with
  | nil => simp [considerationTotal]
  | cons i rest ih => simp [considerationTotal, ih, Nat.add_assoc]

theorem receivedBy_append (a : String) (xs ys : List ConsiderationItem) :
    receivedBy a (xs ++ ys) = receivedBy a xs + receivedBy a ys := by
  induction xs with
  | nil => simp [receivedBy]
  | cons i rest ih => simp [receivedBy, ih, Nat.add_assoc]

theorem sellerProceeds_append (a : String) (xs ys : List ConsiderationItem) :
    sellerProceeds a (xs ++ ys) =
      sellerProceeds a xs + sellerProceeds a ys := by
  induction xs with
  | nil => simp [sellerProceeds]
  | cons i rest ih => simp [sellerProceeds, ih, Nat.add_assoc]

theorem considerationTotal_feeItems (v : Nat) (token : String)
    (fees : List OriginFee) :
    considerationTotal (fees.map (originFeeItem v token)) =
      (fees.map (fun f => computeFee v f.value)).sum := by
  induction fees with
  | nil => simp [considerationTotal]
  | cons f rest ih => simp [considerationTotal, originFeeItem, ih]

theorem receivedBy_feeItems (v : Nat) (token a : String)
    (fees : List OriginFee) :
    receivedBy a (fees.map (originFeeItem v token)) =
      ((fees.filter (fun f => f.account == a)).map
        (fun f => computeFee v f.value)).sum := by
  induction fees with
  | nil => simp [receivedBy]
  | cons f rest ih =>
    by_cases h : f.account = a
    · simp [receivedBy, originFeeItem, List.filter, h, ih]
    · simp [receivedBy, originFeeItem, List.filter, h, ih,
        beq_eq_false_iff_ne.mpr h]

theorem sellerProceeds_feeItems (v : Nat) (token offerer : String)
    (fees : List OriginFee) (hacc : ∀ f ∈ fees, f.account ≠ offerer) :
    sellerProceeds offerer (fees.map (originFeeItem v token)) = 0 := by
  induction fees with
  | nil => simp [sellerProceeds]
  | cons f rest ih =>
    have hf : f.account ≠ offerer := hacc f (by simp)
    have hrest : ∀ g ∈ rest, g.account ≠ offerer := fun g hg =>
      hacc g (by simp [hg])
    simp [sellerProceeds, originFeeItem, hf, ih hrest]

/-- C4: origin fees are additive.  Appending the caller's origin fees to
a Seaport order's consideration raises the buyer-paid total by exactly
`Σ computeFee takeValue bps` (each entry contributing
`takeValue * bps / 10000` on top), routes to every account exactly its
fee entries' amounts in addition to what the base order already routes
to it, and leaves the seller's proceeds unchanged. -/
theorem seaport_origin_fees_additive (o : SeaportOrder) (token : String)
    (fees : List OriginFee) (hacc : ∀ f ∈ fees, f.account ≠ o.offerer) :
    considerationTotal (seaportFillConsideration o token fees) =
      o.takeValue +
        (fees.map (fun f => computeFee o.takeValue f.value)).sum ∧
    (∀ a : String, receivedBy a (seaportFillConsideration o token fees) =
      receivedBy a o.consideration +
        ((fees.filter (fun f => f.account == a)).map
          (fun f => computeFee o.takeValue f.value)).sum) ∧
    sellerProceeds o.offerer (seaportFillConsideration o token fees) =
      sellerProceeds o.offerer o.consideration := by
  refine ⟨?_, fun a => ?_, ?_⟩
  · rw [seaportFillConsideration, considerationTotal_append,
      considerationTotal_feeItems]
    rfl
  · rw [seaportFillConsideration, receivedBy_append, receivedBy_feeItems]
  · rw [seaportFillConsideration, sellerProceeds_append,
      sellerProceeds_feeItems o.takeValue token o.offerer fees hacc]
    exact Nat.add_zero _

/-- The Seaport WETH order of the origin-fee test: take value `100000`
base units split 97.5% to the seller (no explicit recipient) and 2.5% to
the OpenSea fee recipient. -/
def wethOrder100k : SeaportOrder :=
  { offerer := "0xseller"
    offerToken := "0xnft"
    offerTokenId := 7
    offerAmount := 10
    consideration :=
      [⟨"0xweth", 97500, none⟩,
        ⟨"0xweth", 2500, some "0x8de9c5a032463c561423387a9648c5c7bcc5bc90"⟩]
    allowPartialFills := true }

/-- Closed-form witness for `seaport_origin_fees_additive`: on the WETH
order with take value 100000 and a single 1000-bps origin fee, the
origin-fee recipient receives exactly 10000 base units and the buyer pays
exactly 110000 base units in total, while the seller still receives
97500. -/
theorem seaport_origin_fees_additive_witness :
    considerationTotal
        (seaportFillConsideration wethOrder100k "0xweth"
          [⟨"0xoriginFee", 1000⟩]) = 110000 ∧
    receivedBy "0xoriginFee"
        (seaportFillConsideration wethOrder100k "0xweth"
          [⟨"0xoriginFee", 1000⟩]) = 10000 ∧
    sellerProceeds "0xseller"
        (seaportFillConsideration wethOrder100k "0xweth"
          [⟨"0xoriginFee", 1000⟩]) = 97500 := by
  have h := seaport_origin_fees_additive wethOrder100k "0xweth"
    [⟨"0xoriginFee", 1000⟩] (by decide)
  exact ⟨h.1.trans (by decide), ((h.2.1) "0xoriginFee").trans (by decide),
    h.2.2.trans (by decide)⟩

/-! ## SeaportOrderHandler.getOrderFee -/

/-- Total value a consideration list routes to explicit third-party
(fee) recipients, i.e. to anyone other than the offerer. -/
def feeConsiderationTotal (offerer : String) :
    List ConsiderationItem → Nat
  | [] => 0
  | i :: rest =>
    (if i.recipient = none ∨ i.recipient = some offerer then 0
      else i.amount) + feeConsiderationTotal offerer rest

/-- Modelled from the spec: `getOrderFee(order) -> basisPoints` of the
Seaport handler — the fee share of the order's consideration measured in
basis points of the total take value. -/
def SeaportOrder.getOrderFee (o : SeaportOrder) : Nat :=
  feeConsiderationTotal o.offerer o.consideration * 10000 / o.takeValue

/-- Modelled from the spec: the Seaport protocol order handler object;
it holds the injected base-fee provider's snapshot and no other state. -/
structure SeaportOrderHandler where
  baseFeeBps : Nat
deriving DecidableEq, Repr

/-- Modelled from the spec: calling `getOrderFee` on the handler returns
the order's fee in basis points together with the handler as it is left
after the call. -/
def SeaportOrderHandler.getOrderFee (h : SeaportOrderHandler)
    (o : SeaportOrder) : Nat × SeaportOrderHandler :=
  (o.getOrderFee, h)

/-- The Seaport ETH order of the fee test (`getOpenseaEthTakeData`
with "10000000000"): 97.5% to the seller, 2.5% to the OpenSea fee
recipient. -/
def openseaEthOrder : SeaportOrder :=
  { offerer := "0xseller"
    offerToken := "0xnft"
    offerTokenId := 7
    offerAmount := 1
    consideration :=
      [⟨"0xeth", 9750000000, none⟩,
        ⟨"0xeth", 250000000,
          some "0x8de9c5a032463c561423387a9648c5c7bcc5bc90"⟩]
    allowPartialFills := true }

/-- C8: `getOrderFee` is deterministic and idempotent — calling it twice
on the same unmodified order returns the same basis-point value both
times and leaves the handler unchanged; on the test's OpenSea ETH order
the value is 250 bps on both calls. -/
theorem getOrderFee_idempotent (h : SeaportOrderHandler)
    (o : SeaportOrder) :
    ((h.getOrderFee o).2.getOrderFee o).1 = (h.getOrderFee o).1 ∧
    ((h.getOrderFee o).2.getOrderFee o).2 = h ∧
    ((SeaportOrderHandler.mk 0).getOrderFee openseaEthOrder).1 = 250 ∧
    ((((SeaportOrderHandler.mk 0).getOrderFee openseaEthOrder).2.getOrderFee
      openseaEthOrder).1 = 250) :=
  ⟨rfl, rfl, by decide, by decide⟩

/-! ## Web3FunctionCall.send with additional calldata

Embedding of `Web3FunctionCall.send`
(`packages/web3-ethereum/src/index.ts`, lines 116–144): when the caller
passes `options.additionalData`, the payload sent to the chain is
`` `0x${sourceData}${additionalData}` `` where both parts have their
`0x` prefix stripped by `toBinary(·).slice(2)`, and the returned
`Web3Transaction` carries that same payload in its `data` field.
Hex-encoded binaries are modelled as the character lists of their
`0x`-prefixed string form. -/

/-- The `toBinary(·).slice(2)` idiom: strip the two-character `0x`
prefix of a hex binary. -/
def slice2 (s : List Char) : List Char := s.drop 2

/-- The send options of `EthereumSendOptions` that matter to the payload:
the optional extra calldata and the attached native-coin value. -/
structure EthereumSendOptions where
  additionalData : Option (List Char)
  value : Nat
deriving DecidableEq

/-- The returned transaction object (`Web3Transaction`): hash, full
payload, nonce, sender and target. -/
structure Web3Transaction where
  hash : String
  data : List Char
  nonce : Nat
  «from» : String
  «to» : String
deriving DecidableEq

/-- Embedding of `Web3FunctionCall.send`.  `sourceData` is the ABI
encoding `this.getData()` returns (external); `hash` and `nonce` are
what the chain interaction produced.  With `additionalData` present the
payload is the concatenation `0x` + stripped source data + stripped
additional data, and the same payload is stored in the returned
transaction's `data`; without it the payload is the plain call data. -/
def web3Send (sourceData : List Char) (options : EthereumSendOptions)
    (hash : String) (nonce : Nat) (sender contractAddr : String) :
    List Char × Web3Transaction :=
  match options.additionalData with
  | some ad =>
    let additionalData := slice2 ad
    let sd := slice2 sourceData
    let data := "0x".data ++ sd ++ additionalData
    (data, ⟨hash, data, nonce, sender, contractAddr⟩)
  | none => (sourceData, ⟨hash, sourceData, nonce, sender, contractAddr⟩)

/-- C10: a successful `send` with `options.additionalData` sends to the
chain exactly the ABI call data with the additional data appended as a
hex suffix, the returned transaction's `data` field equals that full
concatenated payload, and the payload therefore ends with the additional
calldata suffix. -/
theorem web3Send_additional_data (sourceData ad : List Char)
    (options : EthereumSendOptions) (hash : String) (nonce : Nat)
    (sender contractAddr : String)
    (h : options.additionalData = some ad) :
    (web3Send sourceData options hash nonce sender contractAddr).1 =
      "0x".data ++ slice2 sourceData ++ slice2 ad ∧
    (web3Send sourceData options hash nonce sender contractAddr).2.data =
      (web3Send sourceData options hash nonce sender contractAddr).1 ∧
    slice2 ad <:+
      (web3Send sourceData options hash nonce sender contractAddr).2.data := by
  refine ⟨?_, ?_, ?_⟩
  · simp [web3Send, h]
  · simp [web3Send, h]
  · simp only [web3Send, h]
    exact ⟨"0x".data ++ slice2 sourceData, by simp⟩

/-- Closed-form witness for `web3Send_additional_data`: the payload of a
send carrying extra calldata `0x1234` over call data `0xabcdef` is
`0xabcdef1234`, returned unchanged in the transaction's `data`. -/
theorem web3Send_additional_data_witness :
    ((web3Send "0xabcdef".data ⟨some "0x1234".data, 0⟩ "0xhash" 1
        "0xbuyer" "0xlooksrare").1 =
      "0x".data ++ slice2 "0xabcdef".data ++ slice2 "0x1234".data) ∧
    ((web3Send "0xabcdef".data ⟨some "0x1234".data, 0⟩ "0xhash" 1
        "0xbuyer" "0xlooksrare").2.data =
      (web3Send "0xabcdef".data ⟨some "0x1234".data, 0⟩ "0xhash" 1
        "0xbuyer" "0xlooksrare").1) ∧
    (slice2 "0x1234".data <:+
      (web3Send "0xabcdef".data ⟨some "0x1234".data, 0⟩ "0xhash" 1
        "0xbuyer" "0xlooksrare").2.data) ∧
    ((web3Send "0xabcdef".data ⟨some "0x1234".data, 0⟩ "0xhash" 1
        "0xbuyer" "0xlooksrare").2.data = "0xabcdef1234".data) :=
  ⟨(web3Send_additional_data "0xabcdef".data "0x1234".data
      ⟨some "0x1234".data, 0⟩ "0xhash" 1 "0xbuyer" "0xlooksrare" rfl).1,
    (web3Send_additional_data "0xabcdef".data "0x1234".data
      ⟨some "0x1234".data, 0⟩ "0xhash" 1 "0xbuyer" "0xlooksrare" rfl).2.1,
    (web3Send_additional_data "0xabcdef".data "0x1234".data
      ⟨some "0x1234".data, 0⟩ "0xhash" 1 "0xbuyer" "0xlooksrare" rfl).2.2,
    by decide⟩

end EthereumSdk
